import Mathlib

/-!
Shallow embedding of the NetFlow collector pipeline from
`src/netflow/wise_collector.py` (`ThreadedNetFlowListener` and its
decode/retry loop), together with a model of the external decoder
`parse_packet`, which lives outside `src/`.

Conventions of the embedding:
* the payload type `D` and the template-store type `T` are parameters,
  since the byte-level decoder is an external collaborator;
* the decoder `parse : D → T → DecodeResult T` returns the (possibly
  mutated) template store in every outcome, mirroring the in-place
  mutation of the `templates` dict in the Python source;
* time is modelled as natural-number seconds; Python's
  `time.time() - pkt.ts > PACKET_TIMEOUT` becomes truncated subtraction
  `now - pkt.ts > PACKET_TIMEOUT`, which selects the same branch for all
  `now ≥ pkt.ts`;
* the FIFO queues (`input`, `output`) and the retry list `to_retry` are
  Lean lists, with `get` at the head and `put` appending at the tail;
* an exception that the loop body does not catch is represented by the
  `StepResult.crashed` outcome: in the source it escapes the inner
  `try`, ends the `while` loop and reaches the `finally` block.
-/

namespace WiseCollector

/-- `RawPacket = namedtuple('RawPacket', ['ts', 'client', 'data'])`:
a datagram stamped with its arrival time and source address. -/
structure RawPacket (D : Type) where
  ts : Nat
  client : Nat
  data : D
deriving DecidableEq, Repr

/-- Header fields of a decoded export, as used by the collector:
`export.header.version`, `export.header.count`, `export.header.length`. -/
structure Header where
  version : Nat
  count : Nat
  length : Nat
deriving DecidableEq, Repr

/-- The decoded export object returned by the external decoder, restricted
to the fields the collector reads: the header and the
`contains_new_templates` flag. -/
structure Export where
  header : Header
  contains_new_templates : Bool
deriving DecidableEq, Repr

/-- `ParsedPacket = namedtuple('ParsedPacket', ['ts', 'client', 'export'])`:
a successfully decoded packet handed to the output queue. -/
structure ParsedPacket where
  ts : Nat
  client : Nat
  export' : Export
deriving DecidableEq, Repr

/-- Amount of time to wait before dropping an undecodable ExportPacket:
`PACKET_TIMEOUT = 60 * 60`. -/
def PACKET_TIMEOUT : Nat := 60 * 60

/-- Outcome of one call to the external decoder `parse_packet(data, templates)`.
Every outcome carries the template store, because the Python decoder mutates
the `templates` dict in place even when it subsequently raises. -/
inductive DecodeResult (T : Type) where
  | ok (export' : Export) (templates : T)
  | unknownVersion (templates : T)
  | templateMiss (templates : T)
  | otherError (templates : T)
deriving DecidableEq, Repr

/-- The template store carried by a decode outcome. -/
def DecodeResult.templatesOf {T : Type} : DecodeResult T → T
  | .ok _ t => t
  | .unknownVersion t => t
  | .templateMiss t => t
  | .otherError t => t

/-- The mutable state of `ThreadedNetFlowListener.run`: the input queue,
the output queue, the `to_retry` list and the template store. -/
structure LoopState (D T : Type) where
  input : List (RawPacket D)
  output : List ParsedPacket
  to_retry : List (RawPacket D)
  templates : T
deriving DecidableEq, Repr

/-- Result of one iteration of the decode loop body: either the loop
continues with a new state, or an uncaught exception ended the `while`
loop (the `finally` block then shuts the server down). -/
inductive StepResult (D T : Type) where
  | next (s : LoopState D T)
  | crashed (s : LoopState D T)
deriving DecidableEq, Repr

/-- The state carried by a step result, whether the loop continues or not. -/
def StepResult.state {D T : Type} : StepResult D T → LoopState D T
  | .next s => s
  | .crashed s => s

/-- The guard of the template-discovery amplification:
`export.header.version in [9, 10] and export.contains_new_templates and to_retry`. -/
def newTemplatesCond {D : Type} (e : Export) (to_retry : List (RawPacket D)) : Bool :=
  (e.header.version == 9 || e.header.version == 10)
    && e.contains_new_templates && !to_retry.isEmpty

/-- One iteration of the `while not self._shutdown.is_set()` body of
`ThreadedNetFlowListener.run`:
* an empty input queue raises `queue.Empty`, which is caught and the loop
  continues unchanged;
* otherwise the head packet is popped and decoded:
  `UnknownExportVersion` is logged and the packet ignored;
  `V9TemplateNotRecognized` / `IPFIXTemplateNotRecognized` trigger the age
  check `time.time() - pkt.ts > PACKET_TIMEOUT` — stale packets are dropped
  with a warning, fresh ones are appended to `to_retry`;
  any other exception is not caught by the loop body and terminates the loop;
  on success, if the export is v9/IPFIX, announced new templates and
  `to_retry` is non-empty, the whole retry list is re-put onto the input
  queue in order and cleared, and finally
  `ParsedPacket(pkt.ts, pkt.client, export)` is put on the output queue. -/
def runStep {D T : Type} (parse : D → T → DecodeResult T) (now : Nat)
    (s : LoopState D T) : StepResult D T :=
  match s.input with
  | [] => .next s
  | pkt :: rest =>
    match parse pkt.data s.templates with
    | .unknownVersion t' => .next { s with input := rest, templates := t' }
    | .templateMiss t' =>
      if now - pkt.ts > PACKET_TIMEOUT then
        .next { s with input := rest, templates := t' }
      else
        .next { s with input := rest, to_retry := s.to_retry ++ [pkt], templates := t' }
    | .otherError t' => .crashed { s with input := rest, templates := t' }
    | .ok e t' =>
      let s1 : LoopState D T := { s with input := rest, templates := t' }
      let s2 : LoopState D T :=
        if newTemplatesCond e s1.to_retry then
          { s1 with input := s1.input ++ s1.to_retry, to_retry := [] }
        else s1
      .next { s2 with output := s2.output ++ [⟨pkt.ts, pkt.client, e⟩] }

/-- Iterate the decode loop: each entry of `nows` is the value of
`time.time()` observed at one iteration. The run stops early when an
uncaught exception ends the `while` loop; the boolean records whether
that happened. -/
def runTrace {D T : Type} (parse : D → T → DecodeResult T) :
    List Nat → LoopState D T → LoopState D T × Bool
  | [], s => (s, false)
  | now :: rest, s =>
    match runStep parse now s with
    | .next s' => runTrace parse rest s'
    | .crashed s' => (s', true)

/-- Abstract payloads for the modelled decoder: a v9 packet carrying a
template definition, a v9 data record referencing a template id, a
datagram with an unsupported version byte, and a malformed datagram on
which decoding raises an untyped exception. -/
inductive Payload where
  | templateDef (tid : Nat)
  | dataRecord (tid : Nat)
  | badVersion
  | malformed
deriving DecidableEq, Repr

/-- Modelled from the spec: the external decoder `parse_packet`
(`netflow/utils.py`, `netflow/v9.py`, `netflow/ipfix.py` — part of this
repository but not under `src/`). Per the decoder contract it fails with
`UnsupportedVersion` when the version field is unsupported, fails with
`TemplateNotRecognized` when a v9/IPFIX record references a template id
absent from the store, and otherwise returns an export exposing header
fields and a boolean "introduced new templates" flag, adding announced
templates to the store as a side effect. The template store is the list
of known template ids. -/
def modelParse : Payload → List Nat → DecodeResult (List Nat)
  | .templateDef tid, ts =>
      .ok ⟨⟨9, 0, 0⟩, true⟩ (ts ++ [tid])
  | .dataRecord tid, ts =>
      if tid ∈ ts then .ok ⟨⟨9, 1, 0⟩, false⟩ ts
      else .templateMiss ts
  | .badVersion, ts => .unknownVersion ts
  | .malformed, ts => .otherError ts

/-- Number of raw packets in a list whose arrival timestamp is `t`. -/
def cntRaw {D : Type} (l : List (RawPacket D)) (t : Nat) : Nat :=
  (l.filter fun p => p.ts == t).length

/-- Number of parsed packets in a list whose arrival timestamp is `t`. -/
def cntParsed (l : List ParsedPacket) (t : Nat) : Nat :=
  (l.filter fun p => p.ts == t).length

/-- Total number of packets with timestamp `t` held anywhere in the loop
state: input queue, retry list, or output queue. -/
def cntTotal {D T : Type} (s : LoopState D T) (t : Nat) : Nat :=
  cntRaw s.input t + cntRaw s.to_retry t + cntParsed s.output t

/-! ## Lifecycle model

`ThreadedNetFlowListener` wraps the loop state with the `_shutdown`
event, the UDP server and the reception thread. `stop()` only sets the
event; the loop checks it at the top of each iteration and, once it is
observed (or the loop ends by exception), the `finally` block calls
`server.shutdown()` and `server.server_close()`. -/

/-- The listener object: decode-loop state plus the `_shutdown` event,
whether the decode thread was started (`start()` was called), and whether
the `finally` block has run `server.shutdown()` / `server.server_close()`. -/
structure Listener (D T : Type) where
  st : LoopState D T
  shutdownFlag : Bool
  started : Bool
  serverShutdown : Bool
  serverClosed : Bool
deriving DecidableEq, Repr

/-- The `finally` block of `run`: `self.server.shutdown()` then
`self.server.server_close()`. -/
def finallyCleanup {D T : Type} (l : Listener D T) : Listener D T :=
  { l with serverShutdown := true, serverClosed := true }

/-- `ThreadedNetFlowListener.stop`: sets the `_shutdown` event (and logs);
nothing else. -/
def stop {D T : Type} (l : Listener D T) : Listener D T :=
  { l with shutdownFlag := true }

/-- Modelled from the spec: `ThreadedNetFlowListener.join` delegates to
`threading.Thread.join`, which blocks until the reception thread and the
decode thread terminate and raises only when the thread being joined was
never started. Its only state-visible content in a pure model is the
possible error. -/
def joinListener {D T : Type} (l : Listener D T) :
    Except String (Listener D T) :=
  if l.started then .ok l else .error "cannot join thread before it is started"

/-- The decode loop of a running listener: at each iteration the
`_shutdown` event is checked first; once observed, the loop exits and the
`finally` block runs without touching the queues. An uncaught decode
exception also ends the loop through the `finally` block. An exhausted
schedule (`nows = []`) leaves the listener still polling. -/
def runListener {D T : Type} (parse : D → T → DecodeResult T) :
    List Nat → Listener D T → Listener D T
  | [], l => if l.shutdownFlag then finallyCleanup l else l
  | now :: rest, l =>
    if l.shutdownFlag then finallyCleanup l
    else
      match runStep parse now l.st with
      | .next s' => runListener parse rest { l with st := s' }
      | .crashed s' => finallyCleanup { l with st := s' }

/-! ## Helper lemmas: packet counting and output monotonicity -/

theorem cntRaw_nil {D : Type} (t : Nat) : cntRaw ([] : List (RawPacket D)) t = 0 := rfl

theorem cntRaw_cons {D : Type} (p : RawPacket D) (l : List (RawPacket D)) (t : Nat) :
    cntRaw (p :: l) t = (if p.ts = t then 1 else 0) + cntRaw l t := by
  by_cases h : p.ts = t <;>
    simp [cntRaw, List.filter_cons, h, Nat.add_comm]

theorem cntRaw_append {D : Type} (a b : List (RawPacket D)) (t : Nat) :
    cntRaw (a ++ b) t = cntRaw a t + cntRaw b t := by
  simp [cntRaw, List.filter_append]

theorem cntParsed_cons (p : ParsedPacket) (l : List ParsedPacket) (t : Nat) :
    cntParsed (p :: l) t = (if p.ts = t then 1 else 0) + cntParsed l t := by
  by_cases h : p.ts = t <;>
    simp [cntParsed, List.filter_cons, h, Nat.add_comm]

theorem cntParsed_append (a b : List ParsedPacket) (t : Nat) :
    cntParsed (a ++ b) t = cntParsed a t + cntParsed b t := by
  simp [cntParsed, List.filter_append]

theorem cntParsed_singleton (p : ParsedPacket) (t : Nat) :
    cntParsed [p] t = if p.ts = t then 1 else 0 := by
  by_cases h : p.ts = t <;> simp [cntParsed, List.filter_cons, h]

/-- A single loop iteration never increases the number of packets with a
given timestamp held anywhere in the state: a packet is moved between the
queues, emitted, or dropped, never duplicated. -/
theorem cntTotal_runStep_le {D T : Type} (parse : D → T → DecodeResult T)
    (now : Nat) (s : LoopState D T) (t : Nat) :
    cntTotal (runStep parse now s).state t ≤ cntTotal s t := by
  obtain ⟨i, o, r, tm⟩ := s
  cases i with
  | nil => simp [runStep, StepResult.state]
  | cons pkt rest =>
    simp only [runStep]
    cases hp : parse pkt.data tm with
    | unknownVersion t' =>
      simp only [StepResult.state, cntTotal, cntRaw_cons]
      omega
    | templateMiss t' =>
      by_cases hnow : now - pkt.ts > PACKET_TIMEOUT <;>
        simp only [hnow, if_true, if_false, ite_true, ite_false, not_true, not_false_iff,
          StepResult.state, cntTotal, cntRaw_cons, cntRaw_append, cntRaw_nil] <;>
        omega
    | otherError t' =>
      simp only [StepResult.state, cntTotal, cntRaw_cons]
      omega
    | ok e t' =>
      simp only
      by_cases hc : newTemplatesCond e r = true <;>
        simp [hc, StepResult.state, cntTotal, cntRaw_cons, cntRaw_append,
          cntParsed_append, cntParsed_singleton, cntRaw_nil] <;>
        omega

/-- Packet counts never increase along a whole run of the loop. -/
theorem cntTotal_runTrace_le {D T : Type} (parse : D → T → DecodeResult T)
    (nows : List Nat) (s : LoopState D T) (t : Nat) :
    cntTotal (runTrace parse nows s).1 t ≤ cntTotal s t := by
  induction nows generalizing s with
  | nil => simp [runTrace]
  | cons now rest ih =>
    simp only [runTrace]
    have hle := cntTotal_runStep_le parse now s t
    cases h : runStep parse now s with
    | next s' =>
      rw [h] at hle
      exact le_trans (ih s') hle
    | crashed s' =>
      rw [h] at hle
      simpa using hle

/-- The number of emitted packets with a given timestamp is bounded by the
total number held in the state. -/
theorem cntParsed_le_cntTotal {D T : Type} (s : LoopState D T) (t : Nat) :
    cntParsed s.output t ≤ cntTotal s t :=
  Nat.le_add_left _ _

/-- The output queue only grows: one iteration appends to it. -/
theorem runStep_output_extend {D T : Type} (parse : D → T → DecodeResult T)
    (now : Nat) (s : LoopState D T) :
    ∃ l, (runStep parse now s).state.output = s.output ++ l := by
  obtain ⟨i, o, r, tm⟩ := s
  cases i with
  | nil => exact ⟨[], by simp [runStep, StepResult.state]⟩
  | cons pkt rest =>
    simp only [runStep]
    cases hp : parse pkt.data tm with
    | unknownVersion t' => exact ⟨[], by simp [StepResult.state]⟩
    | templateMiss t' =>
      by_cases hnow : now - pkt.ts > PACKET_TIMEOUT <;>
        exact ⟨[], by simp [hnow, StepResult.state]⟩
    | otherError t' => exact ⟨[], by simp [StepResult.state]⟩
    | ok e t' =>
      simp only
      by_cases hc : newTemplatesCond e r = true <;>
        exact ⟨[⟨pkt.ts, pkt.client, e⟩], by simp [hc, StepResult.state]⟩

/-- The output queue only grows along a whole run of the loop. -/
theorem runTrace_output_extend {D T : Type} (parse : D → T → DecodeResult T)
    (nows : List Nat) (s : LoopState D T) :
    ∃ l, (runTrace parse nows s).1.output = s.output ++ l := by
  induction nows generalizing s with
  | nil => exact ⟨[], by simp [runTrace]⟩
  | cons now rest ih =>
    simp only [runTrace]
    obtain ⟨l₁, hl₁⟩ := runStep_output_extend parse now s
    cases h : runStep parse now s with
    | next s' =>
      obtain ⟨l₂, hl₂⟩ := ih s'
      rw [h] at hl₁
      simp only [StepResult.state] at hl₁
      exact ⟨l₁ ++ l₂, by rw [hl₂, hl₁, List.append_assoc]⟩
    | crashed s' =>
      rw [h] at hl₁
      simp only [StepResult.state] at hl₁
      exact ⟨l₁, hl₁⟩

/-- Propositional reading of the Boolean amplification guard
`export.header.version in [9, 10] and export.contains_new_templates and to_retry`. -/
theorem newTemplatesCond_iff {D : Type} (e : Export) (l : List (RawPacket D)) :
    newTemplatesCond e l = true ↔
      (e.header.version = 9 ∨ e.header.version = 10) ∧
        e.contains_new_templates = true ∧ l ≠ [] := by
  cases l <;> simp [newTemplatesCond]

/-! ## Claim theorems -/

/-- C2: for a v9/IPFIX packet whose decode fails with a
template-not-recognized condition, if `now - pkt.ts > PACKET_TIMEOUT`
(with `PACKET_TIMEOUT = 3600` seconds) the packet is dropped with a
warning and never buffered; otherwise it is appended to the retry
buffer; in either case nothing is emitted to the output queue for that
attempt. -/
theorem c2_template_miss_age_check {D T : Type} (parse : D → T → DecodeResult T)
    (now : Nat) (s : LoopState D T) (pkt : RawPacket D) (rest : List (RawPacket D)) (t' : T)
    (hin : s.input = pkt :: rest)
    (hp : parse pkt.data s.templates = .templateMiss t') :
    PACKET_TIMEOUT = 3600 ∧
    (now - pkt.ts > PACKET_TIMEOUT →
      runStep parse now s = .next ⟨rest, s.output, s.to_retry, t'⟩) ∧
    (¬ now - pkt.ts > PACKET_TIMEOUT →
      runStep parse now s = .next ⟨rest, s.output, s.to_retry ++ [pkt], t'⟩) := by
  refine ⟨rfl, ?_, ?_⟩ <;> intro h <;> simp [runStep, hin, hp, h]

/-- Witness for C2 at concrete inputs: a data record for unknown template 7,
once stale (age 5000 s > 3600 s, dropped) and once fresh (age 10 s, buffered). -/
theorem c2_template_miss_age_check_witness :
    runStep modelParse 5000
        (⟨[⟨0, 1, .dataRecord 7⟩], [], [], []⟩ : LoopState Payload (List Nat))
      = .next ⟨[], [], [], []⟩ ∧
    runStep modelParse 10
        (⟨[⟨0, 1, .dataRecord 7⟩], [], [], []⟩ : LoopState Payload (List Nat))
      = .next ⟨[], [], [⟨0, 1, .dataRecord 7⟩], []⟩ :=
  ⟨(c2_template_miss_age_check modelParse 5000
      ⟨[⟨0, 1, .dataRecord 7⟩], [], [], []⟩ ⟨0, 1, .dataRecord 7⟩ [] []
      rfl (by decide)).2.1 (by decide),
   (c2_template_miss_age_check modelParse 10
      ⟨[⟨0, 1, .dataRecord 7⟩], [], [], []⟩ ⟨0, 1, .dataRecord 7⟩ [] []
      rfl (by decide)).2.2 (by decide)⟩

/-- C3: when a just-decoded export has version 9 or 10, signals new
template definitions and the retry buffer is non-empty, the whole retry
buffer is re-put onto the input queue in FIFO order (after the packets
already queued) and cleared; if any of the three conditions fails, the
retry buffer is left unchanged. -/
theorem c3_new_template_reinjection {D T : Type} (parse : D → T → DecodeResult T)
    (now : Nat) (s : LoopState D T) (pkt : RawPacket D) (rest : List (RawPacket D))
    (e : Export) (t' : T)
    (hin : s.input = pkt :: rest)
    (hp : parse pkt.data s.templates = .ok e t') :
    (((e.header.version = 9 ∨ e.header.version = 10) ∧
        e.contains_new_templates = true ∧ s.to_retry ≠ []) →
      runStep parse now s
        = .next ⟨rest ++ s.to_retry, s.output ++ [⟨pkt.ts, pkt.client, e⟩], [], t'⟩) ∧
    (¬ ((e.header.version = 9 ∨ e.header.version = 10) ∧
        e.contains_new_templates = true ∧ s.to_retry ≠ []) →
      runStep parse now s
        = .next ⟨rest, s.output ++ [⟨pkt.ts, pkt.client, e⟩], s.to_retry, t'⟩) := by
  constructor <;> intro h
  · have hc : newTemplatesCond e s.to_retry = true :=
      (newTemplatesCond_iff e s.to_retry).mpr h
    simp [runStep, hin, hp, hc]
  · have hc : ¬ newTemplatesCond e s.to_retry = true := fun hh =>
      h ((newTemplatesCond_iff e s.to_retry).mp hh)
    simp [runStep, hin, hp, hc]

/-- Witness for C3 at concrete inputs: a template-definition packet with a
non-empty retry buffer triggers full FIFO re-injection and clears the
buffer; a successful decode without new templates leaves the buffer
unchanged. -/
theorem c3_new_template_reinjection_witness :
    runStep modelParse 20
        (⟨[⟨6, 2, .templateDef 7⟩], [],
          [⟨4, 1, .dataRecord 7⟩, ⟨5, 1, .dataRecord 7⟩], []⟩ :
          LoopState Payload (List Nat))
      = .next ⟨[⟨4, 1, .dataRecord 7⟩, ⟨5, 1, .dataRecord 7⟩],
          [⟨6, 2, ⟨⟨9, 0, 0⟩, true⟩⟩], [], [7]⟩ ∧
    runStep modelParse 20
        (⟨[⟨6, 2, .dataRecord 3⟩], [], [⟨4, 1, .dataRecord 7⟩], [3]⟩ :
          LoopState Payload (List Nat))
      = .next ⟨[], [⟨6, 2, ⟨⟨9, 1, 0⟩, false⟩⟩], [⟨4, 1, .dataRecord 7⟩], [3]⟩ :=
  ⟨(c3_new_template_reinjection modelParse 20
      ⟨[⟨6, 2, .templateDef 7⟩], [], [⟨4, 1, .dataRecord 7⟩, ⟨5, 1, .dataRecord 7⟩], []⟩
      ⟨6, 2, .templateDef 7⟩ [] ⟨⟨9, 0, 0⟩, true⟩ [7]
      rfl (by decide)).1 (by decide),
   (c3_new_template_reinjection modelParse 20
      ⟨[⟨6, 2, .dataRecord 3⟩], [], [⟨4, 1, .dataRecord 7⟩], [3]⟩
      ⟨6, 2, .dataRecord 3⟩ [] ⟨⟨9, 1, 0⟩, false⟩ [3]
      rfl (by decide)).2 (by decide)⟩

/-- C6: a packet whose decode fails with the unsupported-version condition
is discarded: it is not appended to the retry buffer, the loop continues
with the next packet (`StepResult.next`), and — when no other copy of it
is held anywhere — no packet with its timestamp ever reaches the output
queue in any continuation of the run. -/
theorem c6_unknown_version_drop {D T : Type} (parse : D → T → DecodeResult T)
    (now : Nat) (s : LoopState D T) (pkt : RawPacket D) (rest : List (RawPacket D)) (t' : T)
    (hin : s.input = pkt :: rest)
    (hp : parse pkt.data s.templates = .unknownVersion t') :
    runStep parse now s = .next ⟨rest, s.output, s.to_retry, t'⟩ ∧
    (cntRaw rest pkt.ts = 0 → cntRaw s.to_retry pkt.ts = 0 →
      cntParsed s.output pkt.ts = 0 →
      ∀ nows, cntParsed
        (runTrace parse nows ⟨rest, s.output, s.to_retry, t'⟩).1.output pkt.ts = 0) := by
  refine ⟨by simp [runStep, hin, hp], ?_⟩
  intro h1 h2 h3 nows
  have htot : cntTotal (⟨rest, s.output, s.to_retry, t'⟩ : LoopState D T) pkt.ts = 0 := by
    simp [cntTotal, h1, h2, h3]
  have hle := cntTotal_runTrace_le parse nows ⟨rest, s.output, s.to_retry, t'⟩ pkt.ts
  rw [htot] at hle
  have h4 := cntParsed_le_cntTotal
    (runTrace parse nows ⟨rest, s.output, s.to_retry, t'⟩).1 pkt.ts
  omega

/-- Witness for C6 at a concrete input: an unsupported-version datagram is
dropped, the following template packet is still processed, and nothing
with the dropped packet's timestamp is ever emitted. -/
theorem c6_unknown_version_drop_witness :
    runStep modelParse 10
        (⟨[⟨0, 1, .badVersion⟩, ⟨1, 2, .templateDef 3⟩], [], [], []⟩ :
          LoopState Payload (List Nat))
      = .next ⟨[⟨1, 2, .templateDef 3⟩], [], [], []⟩ ∧
    cntParsed (runTrace modelParse [11, 12]
        (⟨[⟨1, 2, .templateDef 3⟩], [], [], []⟩ :
          LoopState Payload (List Nat))).1.output 0 = 0 :=
  ⟨(c6_unknown_version_drop modelParse 10
      ⟨[⟨0, 1, .badVersion⟩, ⟨1, 2, .templateDef 3⟩], [], [], []⟩
      ⟨0, 1, .badVersion⟩ [⟨1, 2, .templateDef 3⟩] []
      rfl (by decide)).1,
   (c6_unknown_version_drop modelParse 10
      ⟨[⟨0, 1, .badVersion⟩, ⟨1, 2, .templateDef 3⟩], [], [], []⟩
      ⟨0, 1, .badVersion⟩ [⟨1, 2, .templateDef 3⟩] []
      rfl (by decide)).2 (by decide) (by decide) (by decide) [11, 12]⟩

/-- C9: every packet that decodes successfully is pushed to the output
queue as a `ParsedPacket` carrying the original raw packet's arrival
timestamp and client address unchanged, for every value of the current
time — the `PACKET_TIMEOUT` age check sits only in the template-miss
branch, so even a packet older than `PACKET_TIMEOUT` is still emitted. -/
theorem c9_success_emitted_regardless_of_age {D T : Type}
    (parse : D → T → DecodeResult T) (now : Nat) (s : LoopState D T)
    (pkt : RawPacket D) (rest : List (RawPacket D)) (e : Export) (t' : T)
    (hin : s.input = pkt :: rest)
    (hp : parse pkt.data s.templates = .ok e t') :
    ∃ s', runStep parse now s = .next s' ∧
      s'.output = s.output ++ [⟨pkt.ts, pkt.client, e⟩] := by
  by_cases hc : newTemplatesCond e s.to_retry = true
  · refine ⟨⟨rest ++ s.to_retry, s.output ++ [⟨pkt.ts, pkt.client, e⟩], [], t'⟩, ?_, rfl⟩
    simp [runStep, hin, hp, hc]
  · refine ⟨⟨rest, s.output ++ [⟨pkt.ts, pkt.client, e⟩], s.to_retry, t'⟩, ?_, rfl⟩
    simp [runStep, hin, hp, hc]

/-- Witness for C9 at a concrete input: a data record with a known template
and age 999999 s (far beyond `PACKET_TIMEOUT`) is still emitted, with its
original timestamp 0 and client 1. -/
theorem c9_success_emitted_regardless_of_age_witness :
    ∃ s', runStep modelParse 999999
        (⟨[⟨0, 1, .dataRecord 7⟩], [], [], [7]⟩ : LoopState Payload (List Nat))
      = .next s' ∧
      s'.output = [] ++ [⟨0, 1, ⟨⟨9, 1, 0⟩, false⟩⟩] :=
  c9_success_emitted_regardless_of_age modelParse 999999
    ⟨[⟨0, 1, .dataRecord 7⟩], [], [], [7]⟩
    ⟨0, 1, .dataRecord 7⟩ [] ⟨⟨9, 1, 0⟩, false⟩ [7]
    rfl (by decide)

/-- C10: a packet whose decode introduces new templates is itself emitted
exactly once — a single `ParsedPacket` appended to the output queue — and
the retry-buffer re-injection onto the input queue happens before that
append, so in the output stream the template-carrying packet precedes
every packet re-decoded because of it: after the step the re-injected
packets sit in the input queue and everything they later produce is
appended after the template packet's entry. -/
theorem c10_template_packet_precedes_retries {D T : Type}
    (parse : D → T → DecodeResult T) (now : Nat) (s : LoopState D T)
    (pkt : RawPacket D) (rest : List (RawPacket D)) (e : Export) (t' : T)
    (hin : s.input = pkt :: rest)
    (hp : parse pkt.data s.templates = .ok e t')
    (hv : e.header.version = 9 ∨ e.header.version = 10)
    (hnew : e.contains_new_templates = true)
    (hne : s.to_retry ≠ []) :
    runStep parse now s
      = .next ⟨rest ++ s.to_retry, s.output ++ [⟨pkt.ts, pkt.client, e⟩], [], t'⟩ ∧
    ∀ nows, ∃ suffix,
      (runTrace parse nows
        (⟨rest ++ s.to_retry, s.output ++ [⟨pkt.ts, pkt.client, e⟩], [], t'⟩ :
          LoopState D T)).1.output
        = s.output ++ [⟨pkt.ts, pkt.client, e⟩] ++ suffix := by
  have hc : newTemplatesCond e s.to_retry = true :=
    (newTemplatesCond_iff e s.to_retry).mpr ⟨hv, hnew, hne⟩
  refine ⟨by simp [runStep, hin, hp, hc], ?_⟩
  intro nows
  obtain ⟨l, hl⟩ := runTrace_output_extend parse nows
    (⟨rest ++ s.to_retry, s.output ++ [⟨pkt.ts, pkt.client, e⟩], [], t'⟩ : LoopState D T)
  exact ⟨l, by rw [hl, List.append_assoc]⟩

/-- Witness for C10 at a concrete input: a template-definition packet with
one held data record; after the step and two further iterations the
output starts with the template packet's entry. -/
theorem c10_template_packet_precedes_retries_witness :
    runStep modelParse 20
        (⟨[⟨6, 2, .templateDef 7⟩], [], [⟨5, 1, .dataRecord 7⟩], []⟩ :
          LoopState Payload (List Nat))
      = .next ⟨[⟨5, 1, .dataRecord 7⟩], [⟨6, 2, ⟨⟨9, 0, 0⟩, true⟩⟩], [], [7]⟩ ∧
    (∃ suffix,
      (runTrace modelParse [21, 22]
        (⟨[⟨5, 1, .dataRecord 7⟩], [⟨6, 2, ⟨⟨9, 0, 0⟩, true⟩⟩], [], [7]⟩ :
          LoopState Payload (List Nat))).1.output
        = [] ++ [⟨6, 2, ⟨⟨9, 0, 0⟩, true⟩⟩] ++ suffix) :=
  ⟨(c10_template_packet_precedes_retries modelParse 20
      ⟨[⟨6, 2, .templateDef 7⟩], [], [⟨5, 1, .dataRecord 7⟩], []⟩
      ⟨6, 2, .templateDef 7⟩ [] ⟨⟨9, 0, 0⟩, true⟩ [7]
      rfl (by decide) (by decide) (by decide) (by decide)).1,
   (c10_template_packet_precedes_retries modelParse 20
      ⟨[⟨6, 2, .templateDef 7⟩], [], [⟨5, 1, .dataRecord 7⟩], []⟩
      ⟨6, 2, .templateDef 7⟩ [] ⟨⟨9, 0, 0⟩, true⟩ [7]
      rfl (by decide) (by decide) (by decide) (by decide)).2 [21, 22]⟩

/-- C1, evaluated at the failing input: the loop body catches only the
unsupported-version and template-not-recognized conditions, so a decode
failure of any other kind ends the `while` loop (`crashed = true`); the
packet behind the malformed one is never processed and nothing is
emitted, instead of the claimed log-drop-and-continue behaviour. -/
theorem c1_untyped_decode_exception_ends_loop :
    runTrace modelParse [10, 11]
        (⟨[⟨0, 0, .malformed⟩, ⟨1, 1, .templateDef 3⟩], [], [], []⟩ :
          LoopState Payload (List Nat))
      = (⟨[⟨1, 1, .templateDef 3⟩], [], [], []⟩, true) := by
  decide

/-- C8: `stop()` only sets the shutdown flag; once the decode loop observes
it, no further input is processed (the loop state is untouched, whatever
is still queued) and the loop's own `finally` block shuts down and closes
the UDP server. `stop()` is idempotent and `join()` after `stop()` — on a
started listener — never signals an error, repeated any number of times. -/
theorem c8_stop_join_idempotent {D T : Type} (parse : D → T → DecodeResult T)
    (l : Listener D T) (hstart : l.started = true) :
    (∀ nows, runListener parse nows (stop l) = finallyCleanup (stop l)) ∧
    (finallyCleanup (stop l)).st = l.st ∧
    (finallyCleanup (stop l)).serverShutdown = true ∧
    (finallyCleanup (stop l)).serverClosed = true ∧
    stop (stop l) = stop l ∧
    joinListener (stop l) = .ok (stop l) ∧
    joinListener (stop (stop l)) = .ok (stop l) := by
  refine ⟨?_, rfl, rfl, rfl, rfl, ?_, ?_⟩
  · intro nows; cases nows <;> simp [runListener, stop]
  · simp [joinListener, stop, hstart]
  · simp [joinListener, stop, hstart]

/-- Witness for C8 at a concrete input: a started listener with a packet
still queued; after `stop()` the loop runs no iteration of a two-entry
schedule, the queues are untouched and the server is shut down and
closed; repeated `stop()`/`join()` stay error-free. -/
theorem c8_stop_join_idempotent_witness :
    (runListener modelParse [5, 6]
        (stop (⟨⟨[⟨0, 1, .dataRecord 7⟩], [], [], []⟩, false, true, false, false⟩ :
          Listener Payload (List Nat)))
      = finallyCleanup (stop ⟨⟨[⟨0, 1, .dataRecord 7⟩], [], [], []⟩, false, true, false, false⟩)) ∧
    stop (stop (⟨⟨[⟨0, 1, .dataRecord 7⟩], [], [], []⟩, false, true, false, false⟩ :
        Listener Payload (List Nat)))
      = stop ⟨⟨[⟨0, 1, .dataRecord 7⟩], [], [], []⟩, false, true, false, false⟩ ∧
    joinListener (stop (⟨⟨[⟨0, 1, .dataRecord 7⟩], [], [], []⟩, false, true, false, false⟩ :
        Listener Payload (List Nat)))
      = .ok (stop ⟨⟨[⟨0, 1, .dataRecord 7⟩], [], [], []⟩, false, true, false, false⟩) :=
  ⟨(c8_stop_join_idempotent modelParse
      ⟨⟨[⟨0, 1, .dataRecord 7⟩], [], [], []⟩, false, true, false, false⟩ rfl).1 [5, 6],
   (c8_stop_join_idempotent modelParse
      ⟨⟨[⟨0, 1, .dataRecord 7⟩], [], [], []⟩, false, true, false, false⟩ rfl).2.2.2.2.1,
   (c8_stop_join_idempotent modelParse
      ⟨⟨[⟨0, 1, .dataRecord 7⟩], [], [], []⟩, false, true, false, false⟩ rfl).2.2.2.2.2.1⟩

/-! ## Invariants for the retry-correctness claims -/

/-- Every packet with arrival timestamp `t` held in the queues of `s` is
the data record referencing template `tid`, the output holds at most what
template-gating allows: an emitted packet with timestamp `t` implies the
template `tid` is known. -/
def HeldInv (tid t : Nat) (s : LoopState Payload (List Nat)) : Prop :=
  (∀ p ∈ s.input, p.ts = t → p.data = Payload.dataRecord tid) ∧
  (∀ p ∈ s.to_retry, p.ts = t → p.data = Payload.dataRecord tid) ∧
  (0 < cntParsed s.output t → tid ∈ s.templates)

/-- The modelled decoder never removes a template from the store. -/
theorem modelParse_templates_mono (d : Payload) (ts : List Nat) (x : Nat)
    (hx : x ∈ ts) : x ∈ (modelParse d ts).templatesOf := by
  cases d with
  | templateDef tid =>
    simp [modelParse, DecodeResult.templatesOf, List.mem_append]
    exact Or.inl hx
  | dataRecord tid =>
    by_cases h : tid ∈ ts <;> simp [modelParse, DecodeResult.templatesOf, h, hx]
  | badVersion => simpa [modelParse, DecodeResult.templatesOf] using hx
  | malformed => simpa [modelParse, DecodeResult.templatesOf] using hx

/-- One iteration preserves `HeldInv` and, as long as the current time
keeps timestamp `t` within `PACKET_TIMEOUT`, preserves the exact number
of packets with timestamp `t` held anywhere in the state. -/
theorem heldInv_runStep (tid t now : Nat) (s : LoopState Payload (List Nat))
    (hnow : now - t ≤ PACKET_TIMEOUT) (hinv : HeldInv tid t s) :
    HeldInv tid t (runStep modelParse now s).state ∧
    cntTotal (runStep modelParse now s).state t = cntTotal s t := by
  obtain ⟨hin, hre, hgate⟩ := hinv
  obtain ⟨i, o, r, tm⟩ := s
  simp only at hin hre hgate
  cases i with
  | nil => exact ⟨⟨hin, hre, hgate⟩, rfl⟩
  | cons pkt rest =>
    have hts : pkt.ts = t → pkt.data = Payload.dataRecord tid :=
      hin pkt (List.mem_cons_self pkt rest)
    have hin' : ∀ p ∈ rest, p.ts = t → p.data = Payload.dataRecord tid :=
      fun p hp => hin p (List.mem_cons_of_mem pkt hp)
    cases hd : pkt.data with
    | templateDef tid' =>
      have hts' : pkt.ts ≠ t := fun h => by simp [hd] at hts; exact hts h
      by_cases hr : r.isEmpty
      · -- empty retry buffer: no amplification
        have hstep : runStep modelParse now ⟨pkt :: rest, o, r, tm⟩
            = .next ⟨rest, o ++ [⟨pkt.ts, pkt.client, ⟨⟨9, 0, 0⟩, true⟩⟩],
                r, tm ++ [tid']⟩ := by
          have hc : newTemplatesCond (⟨⟨9, 0, 0⟩, true⟩ : Export) r = false := by
            simp [newTemplatesCond, hr]
          simp [runStep, hd, modelParse, hc]
        rw [hstep]
        simp only [StepResult.state]
        refine ⟨⟨hin', hre, ?_⟩, ?_⟩
        · intro h
          rw [cntParsed_append, cntParsed_singleton] at h
          simp only [hts', if_false, ite_false, Nat.add_zero] at h
          exact List.mem_append_left _ (hgate h)
        · simp [cntTotal, cntRaw_cons, cntParsed_append, cntParsed_singleton, hts']
      · -- non-empty retry buffer: full re-injection
        have hstep : runStep modelParse now ⟨pkt :: rest, o, r, tm⟩
            = .next ⟨rest ++ r, o ++ [⟨pkt.ts, pkt.client, ⟨⟨9, 0, 0⟩, true⟩⟩],
                [], tm ++ [tid']⟩ := by
          have hc : newTemplatesCond (⟨⟨9, 0, 0⟩, true⟩ : Export) r = true := by
            simp [newTemplatesCond, hr]
          simp [runStep, hd, modelParse, hc]
        rw [hstep]
        simp only [StepResult.state]
        refine ⟨⟨?_, ?_, ?_⟩, ?_⟩
        · intro p hp
          rcases List.mem_append.mp hp with h | h
          · exact hin' p h
          · exact hre p h
        · intro p hp
          exact absurd hp (List.not_mem_nil p)
        · intro h
          rw [cntParsed_append, cntParsed_singleton] at h
          simp only [hts', if_false, ite_false, Nat.add_zero] at h
          exact List.mem_append_left _ (hgate h)
        · simp [cntTotal, cntRaw_cons, cntRaw_append, cntRaw_nil,
            cntParsed_append, cntParsed_singleton, hts']
    | dataRecord tid' =>
      by_cases hk : tid' ∈ tm
      · -- template known: successful decode, no new templates
        have hstep : runStep modelParse now ⟨pkt :: rest, o, r, tm⟩
            = .next ⟨rest, o ++ [⟨pkt.ts, pkt.client, ⟨⟨9, 1, 0⟩, false⟩⟩], r, tm⟩ := by
          have hc : newTemplatesCond (⟨⟨9, 1, 0⟩, false⟩ : Export) r = false := by
            simp [newTemplatesCond]
          simp [runStep, hd, modelParse, hk, hc]
        rw [hstep]
        simp only [StepResult.state]
        by_cases hts2 : pkt.ts = t
        · have htid : tid' = tid := by
            have h2 := hts hts2
            rw [hd] at h2
            exact (Payload.dataRecord.injEq tid' tid).mp h2
          refine ⟨⟨hin', hre, ?_⟩, ?_⟩
          · intro _
            rw [← htid]
            exact hk
          · simp [cntTotal, cntRaw_cons, cntParsed_append, cntParsed_singleton, hts2]
            omega
        · refine ⟨⟨hin', hre, ?_⟩, ?_⟩
          · intro h
            rw [cntParsed_append, cntParsed_singleton] at h
            simp only [hts2, if_false, ite_false, Nat.add_zero] at h
            exact hgate h
          · simp [cntTotal, cntRaw_cons, cntParsed_append, cntParsed_singleton, hts2]
      · -- template miss: age check, then drop or buffer
        by_cases hstale : now - pkt.ts > PACKET_TIMEOUT
        · have hts2 : pkt.ts ≠ t := fun h => by rw [h] at hstale; omega
          have hstep : runStep modelParse now ⟨pkt :: rest, o, r, tm⟩
              = .next ⟨rest, o, r, tm⟩ := by
            simp [runStep, hd, modelParse, hk, hstale]
          rw [hstep]
          simp only [StepResult.state]
          refine ⟨⟨hin', hre, hgate⟩, ?_⟩
          simp [cntTotal, cntRaw_cons, hts2]
        · have hstep : runStep modelParse now ⟨pkt :: rest, o, r, tm⟩
              = .next ⟨rest, o, r ++ [pkt], tm⟩ := by
            simp [runStep, hd, modelParse, hk, hstale]
          rw [hstep]
          simp only [StepResult.state]
          refine ⟨⟨hin', ?_, hgate⟩, ?_⟩
          · intro p hp
            rcases List.mem_append.mp hp with h | h
            · exact hre p h
            · rw [List.mem_singleton.mp h]
              exact hts
          · simp [cntTotal, cntRaw_cons, cntRaw_append, cntRaw_nil]
            omega
    | badVersion =>
      have hts' : pkt.ts ≠ t := fun h => by simp [hd] at hts; exact hts h
      have hstep : runStep modelParse now ⟨pkt :: rest, o, r, tm⟩
          = .next ⟨rest, o, r, tm⟩ := by
        simp [runStep, hd, modelParse]
      rw [hstep]
      simp only [StepResult.state]
      refine ⟨⟨hin', hre, hgate⟩, ?_⟩
      simp [cntTotal, cntRaw_cons, hts']
    | malformed =>
      have hts' : pkt.ts ≠ t := fun h => by simp [hd] at hts; exact hts h
      have hstep : runStep modelParse now ⟨pkt :: rest, o, r, tm⟩
          = .crashed ⟨rest, o, r, tm⟩ := by
        simp [runStep, hd, modelParse]
      rw [hstep]
      simp only [StepResult.state]
      refine ⟨⟨hin', hre, hgate⟩, ?_⟩
      simp [cntTotal, cntRaw_cons, hts']

/-- `HeldInv` and the exact packet count are preserved along any run whose
observed times keep timestamp `t` within `PACKET_TIMEOUT`. -/
theorem heldInv_runTrace (tid t : Nat) (nows : List Nat)
    (s : LoopState Payload (List Nat))
    (hnows : ∀ n ∈ nows, n - t ≤ PACKET_TIMEOUT) (hinv : HeldInv tid t s) :
    HeldInv tid t (runTrace modelParse nows s).1 ∧
    cntTotal (runTrace modelParse nows s).1 t = cntTotal s t := by
  induction nows generalizing s with
  | nil => exact ⟨hinv, rfl⟩
  | cons now rest ih =>
    have hstep := heldInv_runStep tid t now s
      (hnows now (List.mem_cons_self now rest)) hinv
    simp only [runTrace]
    cases h : runStep modelParse now s with
    | next s' =>
      rw [h] at hstep
      simp only [StepResult.state] at hstep
      obtain ⟨hi, hc⟩ := hstep
      obtain ⟨hi', hc'⟩ := ih s' (fun n hn => hnows n (List.mem_cons_of_mem now hn)) hi
      exact ⟨hi', by rw [hc', hc]⟩
    | crashed s' =>
      rw [h] at hstep
      simpa only [StepResult.state] using hstep

/-- C4: a v9/IPFIX data record referencing a template `tid` not yet known
when first attempted is never emitted before `tid` enters the template
store (which the modelled decoder grows exactly when a packet carrying
`tid`'s definition is processed), is emitted at most once at any point of
any run, and — provided no observed time exceeds its age bound, so it is
never evicted — is emitted exactly once by any run that drains the input
queue and the retry buffer. -/
theorem c4_retry_correctness (nows : List Nat)
    (s : LoopState Payload (List Nat)) (tid t : Nat)
    (honly_in : ∀ p ∈ s.input, p.ts = t → p.data = Payload.dataRecord tid)
    (honly_re : ∀ p ∈ s.to_retry, p.ts = t → p.data = Payload.dataRecord tid)
    (hone : cntRaw s.input t + cntRaw s.to_retry t = 1)
    (hout : cntParsed s.output t = 0)
    (_hunknown : tid ∉ s.templates)
    (hnows : ∀ n ∈ nows, n - t ≤ PACKET_TIMEOUT) :
    cntParsed (runTrace modelParse nows s).1.output t ≤ 1 ∧
    (0 < cntParsed (runTrace modelParse nows s).1.output t →
      tid ∈ (runTrace modelParse nows s).1.templates) ∧
    ((runTrace modelParse nows s).1.input = [] →
      (runTrace modelParse nows s).1.to_retry = [] →
      cntParsed (runTrace modelParse nows s).1.output t = 1) := by
  have hinv : HeldInv tid t s :=
    ⟨honly_in, honly_re, fun h => absurd hout (by omega)⟩
  obtain ⟨⟨_, _, hgate⟩, hcnt⟩ := heldInv_runTrace tid t nows s hnows hinv
  have htot : cntTotal s t = 1 := by
    simp only [cntTotal, hout, Nat.add_zero]
    exact hone
  rw [htot] at hcnt
  have hle := cntParsed_le_cntTotal (runTrace modelParse nows s).1 t
  refine ⟨by omega, hgate, ?_⟩
  intro hdrain_in hdrain_re
  have h1 : cntRaw (runTrace modelParse nows s).1.input t = 0 := by
    rw [hdrain_in]; rfl
  have h2 : cntRaw (runTrace modelParse nows s).1.to_retry t = 0 := by
    rw [hdrain_re]; rfl
  simp only [cntTotal, h1, h2, Nat.zero_add] at hcnt
  exact hcnt

/-- Witness for C4 at a concrete input: a data record for template 7
arrives before the template definition; after four iterations the held
packet has been emitted exactly once and template 7 is known. -/
theorem c4_retry_correctness_witness :
    cntParsed (runTrace modelParse [10, 11, 12, 13]
        (⟨[⟨5, 1, .dataRecord 7⟩, ⟨6, 2, .templateDef 7⟩], [], [], []⟩ :
          LoopState Payload (List Nat))).1.output 5 ≤ 1 ∧
    (0 < cntParsed (runTrace modelParse [10, 11, 12, 13]
        (⟨[⟨5, 1, .dataRecord 7⟩, ⟨6, 2, .templateDef 7⟩], [], [], []⟩ :
          LoopState Payload (List Nat))).1.output 5 →
      7 ∈ (runTrace modelParse [10, 11, 12, 13]
        (⟨[⟨5, 1, .dataRecord 7⟩, ⟨6, 2, .templateDef 7⟩], [], [], []⟩ :
          LoopState Payload (List Nat))).1.templates) ∧
    ((runTrace modelParse [10, 11, 12, 13]
        (⟨[⟨5, 1, .dataRecord 7⟩, ⟨6, 2, .templateDef 7⟩], [], [], []⟩ :
          LoopState Payload (List Nat))).1.input = [] →
      (runTrace modelParse [10, 11, 12, 13]
        (⟨[⟨5, 1, .dataRecord 7⟩, ⟨6, 2, .templateDef 7⟩], [], [], []⟩ :
          LoopState Payload (List Nat))).1.to_retry = [] →
      cntParsed (runTrace modelParse [10, 11, 12, 13]
        (⟨[⟨5, 1, .dataRecord 7⟩, ⟨6, 2, .templateDef 7⟩], [], [], []⟩ :
          LoopState Payload (List Nat))).1.output 5 = 1) :=
  c4_retry_correctness [10, 11, 12, 13]
    ⟨[⟨5, 1, .dataRecord 7⟩, ⟨6, 2, .templateDef 7⟩], [], [], []⟩ 7 5
    (by decide) (by decide) (by decide) (by decide) (by decide) (by decide)

/-! ## Staleness of the retry buffer (C5) -/

/-- Whether a payload carries a template definition. -/
def Payload.isTemplateDef : Payload → Bool
  | .templateDef _ => true
  | _ => false

/-- No packet in the list carries a template definition. -/
@[reducible] def NoTemplateDefs (l : List (RawPacket Payload)) : Prop :=
  ∀ q ∈ l, q.data.isTemplateDef = false

/-- With the modelled decoder, if neither the input queue nor the retry
buffer holds a template-definition packet, one iteration keeps it that
way and every held retry packet stays in the retry buffer: without a
new-template event the buffer is never re-injected nor cleared. -/
theorem noTemplateDefs_runStep (now : Nat) (s : LoopState Payload (List Nat))
    (hin : NoTemplateDefs s.input) (hre : NoTemplateDefs s.to_retry) :
    NoTemplateDefs (runStep modelParse now s).state.input ∧
    NoTemplateDefs (runStep modelParse now s).state.to_retry ∧
    ∀ p ∈ s.to_retry, p ∈ (runStep modelParse now s).state.to_retry := by
  obtain ⟨i, o, r, tm⟩ := s
  simp only at hin hre
  cases i with
  | nil => exact ⟨hin, hre, fun p hp => hp⟩
  | cons pkt rest =>
    have hin' : NoTemplateDefs rest :=
      fun q hq => hin q (List.mem_cons_of_mem pkt hq)
    cases hd : pkt.data with
    | templateDef tid' =>
      have hcontra := hin pkt (List.mem_cons_self pkt rest)
      rw [hd] at hcontra
      exact absurd hcontra (by simp [Payload.isTemplateDef])
    | dataRecord tid' =>
      by_cases hk : tid' ∈ tm
      · have hstep : runStep modelParse now ⟨pkt :: rest, o, r, tm⟩
            = .next ⟨rest, o ++ [⟨pkt.ts, pkt.client, ⟨⟨9, 1, 0⟩, false⟩⟩], r, tm⟩ := by
          have hc : newTemplatesCond (⟨⟨9, 1, 0⟩, false⟩ : Export) r = false := by
            simp [newTemplatesCond]
          simp [runStep, hd, modelParse, hk, hc]
        rw [hstep]
        exact ⟨hin', hre, fun p hp => hp⟩
      · by_cases hstale : now - pkt.ts > PACKET_TIMEOUT
        · have hstep : runStep modelParse now ⟨pkt :: rest, o, r, tm⟩
              = .next ⟨rest, o, r, tm⟩ := by
            simp [runStep, hd, modelParse, hk, hstale]
          rw [hstep]
          exact ⟨hin', hre, fun p hp => hp⟩
        · have hstep : runStep modelParse now ⟨pkt :: rest, o, r, tm⟩
              = .next ⟨rest, o, r ++ [pkt], tm⟩ := by
            simp [runStep, hd, modelParse, hk, hstale]
          rw [hstep]
          refine ⟨hin', ?_, fun p hp => List.mem_append_left _ hp⟩
          intro q hq
          rcases List.mem_append.mp hq with h | h
          · exact hre q h
          · rw [List.mem_singleton.mp h, hd]
            rfl
    | badVersion =>
      have hstep : runStep modelParse now ⟨pkt :: rest, o, r, tm⟩
          = .next ⟨rest, o, r, tm⟩ := by
        simp [runStep, hd, modelParse]
      rw [hstep]
      exact ⟨hin', hre, fun p hp => hp⟩
    | malformed =>
      have hstep : runStep modelParse now ⟨pkt :: rest, o, r, tm⟩
          = .crashed ⟨rest, o, r, tm⟩ := by
        simp [runStep, hd, modelParse]
      rw [hstep]
      exact ⟨hin', hre, fun p hp => hp⟩

/-- Trace version of `noTemplateDefs_runStep`: with no template-definition
packet anywhere, a held retry packet persists across any whole run. -/
theorem noTemplateDefs_runTrace (nows : List Nat)
    (s : LoopState Payload (List Nat))
    (hin : NoTemplateDefs s.input) (hre : NoTemplateDefs s.to_retry) :
    ∀ p ∈ s.to_retry, p ∈ (runTrace modelParse nows s).1.to_retry := by
  induction nows generalizing s with
  | nil => exact fun p hp => hp
  | cons now rest ih =>
    have hstep := noTemplateDefs_runStep now s hin hre
    simp only [runTrace]
    cases h : runStep modelParse now s with
    | next s' =>
      rw [h] at hstep
      simp only [StepResult.state] at hstep
      obtain ⟨hi, hr, hkeep⟩ := hstep
      exact fun p hp => ih s' hi hr p (hkeep p hp)
    | crashed s' =>
      rw [h] at hstep
      simp only [StepResult.state] at hstep
      exact fun p hp => hstep.2.2 p hp

/-- C5, counterexample: a retry-buffer entry of age 5000 s (exceeding
`PACKET_TIMEOUT = 3600`) whose template arrives IS emitted at the retry
pass triggered by that new-template event — the loop re-attempts the
decode first and only age-checks on a renewed template miss, so the claim
"dropped (never emitted) at the next retry pass" fails. -/
theorem c5_stale_entry_emitted_counterexample :
    5000 - (0 : Nat) > PACKET_TIMEOUT ∧
    cntParsed (runTrace modelParse [5000, 5000]
        (⟨[⟨100, 1, .templateDef 7⟩], [], [⟨0, 2, .dataRecord 7⟩], []⟩ :
          LoopState Payload (List Nat))).1.output 0 = 1 := by
  decide

/-- C5 as amended: (i) a retry-pass packet whose age exceeds
`PACKET_TIMEOUT` is dropped — removed from the state without being
buffered or emitted — only when its re-attempted decode again fails with
a template miss; (ii) once dropped, with no other copy held, no packet
with its timestamp is ever emitted afterwards; (iii) eviction is not
proactive: without a new-template event a stale entry persists in the
retry buffer through any run. -/
theorem c5_amended_eviction_not_proactive :
    (∀ (D T : Type) (parse : D → T → DecodeResult T) (now : Nat)
      (s : LoopState D T) (pkt : RawPacket D) (rest : List (RawPacket D)) (t' : T),
      s.input = pkt :: rest →
      parse pkt.data s.templates = .templateMiss t' →
      now - pkt.ts > PACKET_TIMEOUT →
      runStep parse now s = .next ⟨rest, s.output, s.to_retry, t'⟩ ∧
      (cntRaw rest pkt.ts = 0 → cntRaw s.to_retry pkt.ts = 0 →
        cntParsed s.output pkt.ts = 0 →
        ∀ nows, cntParsed
          (runTrace parse nows ⟨rest, s.output, s.to_retry, t'⟩).1.output pkt.ts = 0)) ∧
    (∀ (nows : List Nat) (s : LoopState Payload (List Nat)) (p : RawPacket Payload),
      NoTemplateDefs s.input → NoTemplateDefs s.to_retry → p ∈ s.to_retry →
      p ∈ (runTrace modelParse nows s).1.to_retry) := by
  constructor
  · intro D T parse now s pkt rest t' hin hp hstale
    refine ⟨by simp [runStep, hin, hp, hstale], ?_⟩
    intro h1 h2 h3 nows
    have htot : cntTotal (⟨rest, s.output, s.to_retry, t'⟩ : LoopState D T) pkt.ts = 0 := by
      simp [cntTotal, h1, h2, h3]
    have hle := cntTotal_runTrace_le parse nows ⟨rest, s.output, s.to_retry, t'⟩ pkt.ts
    rw [htot] at hle
    have h4 := cntParsed_le_cntTotal
      (runTrace parse nows ⟨rest, s.output, s.to_retry, t'⟩).1 pkt.ts
    omega
  · intro nows s p hin hre hp
    exact noTemplateDefs_runTrace nows s hin hre p hp

/-- Witness for the amended C5 at concrete inputs: a stale re-missing
packet is dropped and its timestamp never emitted afterwards; and a held
packet survives a run whose input carries no template definition. -/
theorem c5_amended_eviction_not_proactive_witness :
    (runStep modelParse 5000
        (⟨[⟨0, 1, .dataRecord 9⟩], [], [], [7]⟩ : LoopState Payload (List Nat))
      = .next ⟨[], [], [], [7]⟩ ∧
      cntParsed (runTrace modelParse [5001, 5002]
        (⟨[], [], [], [7]⟩ : LoopState Payload (List Nat))).1.output 0 = 0) ∧
    (⟨0, 2, .dataRecord 7⟩ : RawPacket Payload) ∈
      (runTrace modelParse [10, 11]
        (⟨[⟨1, 1, .dataRecord 3⟩, ⟨2, 1, .badVersion⟩], [],
          [⟨0, 2, .dataRecord 7⟩], [3]⟩ :
          LoopState Payload (List Nat))).1.to_retry :=
  ⟨⟨(c5_amended_eviction_not_proactive.1 Payload (List Nat) modelParse 5000
      ⟨[⟨0, 1, .dataRecord 9⟩], [], [], [7]⟩ ⟨0, 1, .dataRecord 9⟩ [] [7]
      rfl (by decide) (by decide)).1,
    (c5_amended_eviction_not_proactive.1 Payload (List Nat) modelParse 5000
      ⟨[⟨0, 1, .dataRecord 9⟩], [], [], [7]⟩ ⟨0, 1, .dataRecord 9⟩ [] [7]
      rfl (by decide) (by decide)).2 (by decide) (by decide) (by decide) [5001, 5002]⟩,
   c5_amended_eviction_not_proactive.2 [10, 11]
    ⟨[⟨1, 1, .dataRecord 3⟩, ⟨2, 1, .badVersion⟩], [], [⟨0, 2, .dataRecord 7⟩], [3]⟩
    ⟨0, 2, .dataRecord 7⟩ (by decide) (by decide) (by decide)⟩

end WiseCollector
